import Mathlib

/-!
Verification of the misl repository: a thin integration layer over IBM Watson
(Natural Language Understanding, Speech-to-Text, Text-to-Speech) and Azure
Cognitive Services (speech synthesis).  The two source modules,
src/ibm_text_analysis.py and src/text_to_speech.py, are shallowly embedded
below.  External services (the Azure speech SDK event stream, the Watson IAM
token service, the Watson REST endpoints, the decouple config store) are
modelled as explicit parameters, and the side effects the code performs
(config reads, token requests, vendor HTTP requests, file writes) are tracked
as explicit effect traces.
-/

namespace Misl

/-! ## Configuration store (python-decouple)

`config(name)` reads a string value from the environment or a settings file.
The store itself is external; we model it as a total map from key names to
string values. -/

def ConfigStore : Type := String → String

/-! ## Embedding of src/text_to_speech.py

The module imports `azure.cognitiveservices.speech as speechsdk`; its import
of `config` from decouple (line 1) is commented out.  The word-boundary
events delivered by the Azure SDK during synthesis are external input; a
synthesis run is modelled as a function of the event list the SDK would
deliver. -/

/-- A word-boundary event as delivered by the Azure speech SDK callback.
`audio_offset` is the offset of the word in the synthesized audio, counted in
ticks of 100 nanoseconds (the unit the Azure SDK documents for this field);
`duration` is delivered by the SDK as a time interval and the callback stores
it unchanged, so it is carried through opaquely as a rational payload. -/
structure WordBoundaryEvent where
  audio_offset : ℚ
  duration : ℚ
  text : String
  text_offset : ℤ
  word_length : ℕ
deriving DecidableEq, Repr

/-- The dictionary built by `speech_synthesizer_word_boundary_cb` for one
event (src/text_to_speech.py lines 27-34). -/
structure WordBoundary where
  audio_offset : ℚ
  duration : ℚ
  text : String
  text_offset : ℤ
  word_length : ℕ
deriving DecidableEq, Repr

/-- src/text_to_speech.py lines 27-34: the callback builds one record per
event.  Python computes `(evt.audio_offset + 5000) / 10000` with true
division; the remaining fields are copied unchanged. -/
def speech_synthesizer_word_boundary_cb (evt : WordBoundaryEvent) : WordBoundary :=
  { audio_offset := (evt.audio_offset + 5000) / 10000
    duration := evt.duration
    text := evt.text
    text_offset := evt.text_offset
    word_length := evt.word_length }

/-- The single output format the function selects
(`speechsdk.SpeechSynthesisOutputFormat.Audio16Khz32KBitRateMonoMp3`). -/
inductive SpeechSynthesisOutputFormat where
  | audio16Khz32KBitRateMonoMp3
deriving DecidableEq, Repr

/-- Python runtime errors the embedded code can raise. -/
inductive PyError where
  | nameError (name : String)
deriving DecidableEq, Repr

/-- Observable side effects of one call to `create_speech_from_text`, in
program order. `audioFileWritten` records the file write that `speak_ssml`
performs through the `AudioOutputConfig` filename and the configured output
format. -/
inductive TtsEffect where
  | configRead (key : String)
  | speechConfigCreated (subscription region : String)
  | voiceSet (voice : String)
  | outputFormatSet (fmt : SpeechSynthesisOutputFormat)
  | propertySet (property value : String)
  | audioOutputConfigCreated (filename : String)
  | synthesizerCreated
  | wordBoundaryCallbackConnected
  | speakSsml (ssml : String)
  | audioFileWritten (path : String) (fmt : SpeechSynthesisOutputFormat)
deriving DecidableEq, Repr

/-- The SSML document built at src/text_to_speech.py lines 54-58 by
`str.format` on the triple-quoted template (apostrophes written as \x27). -/
def build_ssml (voice text : String) : String :=
  "<speak version=\x271.0\x27 xml:lang=\x27en-US\x27 xmlns=\x27http://www.w3.org/2001/10/synthesis\x27 xmlns:mstts=\x27http://www.w3.org/2001/mstts\x27>\n        <voice name=\x27" ++ voice ++ "\x27>\n            " ++ text ++ "\n        </voice>\n    </speak>"

/-- Global names bound in module text_to_speech at the point line 36 runs:
the `import azure.cognitiveservices.speech as speechsdk` binding and the
function itself.  The import of `config` from decouple (line 1) is commented
out, so `config` is NOT among them. -/
def text_to_speech_globals : List String := ["speechsdk", "create_speech_from_text"]

/-- The module environment with the commented-out decouple import restored:
binding `config` lets the function body run past line 36.  Used to reason
about the synthesis path the spec describes. -/
def text_to_speech_globals_with_config : List String :=
  "config" :: text_to_speech_globals

/-- src/text_to_speech.py line 30 collected list: the callback appends one
record per SDK event, in delivery order. -/
def collectedBoundaries (events : List WordBoundaryEvent) : List WordBoundary :=
  events.map speech_synthesizer_word_boundary_cb

/-- src/text_to_speech.py line 67:
`[item for item in word_boundaries if not " " in item['text']]`.
For the one-character separator `" "`, python substring membership is
character membership. -/
def filteredBoundaries (events : List WordBoundaryEvent) : List WordBoundary :=
  (collectedBoundaries events).filter (fun item => !(item.text.contains ' '))

/-- src/text_to_speech.py line 68:
`sorted(word_boundaries, key=lambda x: x['text_offset'])`.  Python `sorted`
is a stable mergesort producing an ascending reordering by the key, modelled
by `List.mergeSort` on the ≤-by-key order. -/
def sortedBoundaries (events : List WordBoundaryEvent) : List WordBoundary :=
  (filteredBoundaries events).mergeSort
    (fun a b => decide (a.text_offset ≤ b.text_offset))

/-- src/text_to_speech.py lines 4-70, `create_speech_from_text`.

The function initializes `word_boundaries = []` and defines the callback
(no external effect), then evaluates `config("SPEECH_KEY")` as the first
argument of `speechsdk.SpeechConfig`.  That evaluation looks up the global
name `config`: when the name is unbound the call raises `NameError` there,
before any SDK object is constructed and before any effect is performed.
When `config` is bound, the function configures the voice, the output
format and the sentence-boundary property, creates an `AudioOutputConfig`
for `output_filename`, builds the SSML, synthesizes (the SDK delivering
`events` to the connected callback and writing the audio to the configured
file in the configured format), then filters and sorts the collected
records and returns them. -/
def create_speech_from_text (globals : List String) (store : ConfigStore)
    (text output_filename : String) (events : List WordBoundaryEvent) :
    Except PyError (List WordBoundary) × List TtsEffect :=
  if "config" ∈ globals then
    let subscription := store "SPEECH_KEY"
    let region := store "SERVICE_REGION"
    let ssml := build_ssml "en-US-AvaNeural" text
    (Except.ok (sortedBoundaries events),
      [TtsEffect.configRead "SPEECH_KEY",
       TtsEffect.configRead "SERVICE_REGION",
       TtsEffect.speechConfigCreated subscription region,
       TtsEffect.voiceSet "en-US-AvaNeural",
       TtsEffect.outputFormatSet SpeechSynthesisOutputFormat.audio16Khz32KBitRateMonoMp3,
       TtsEffect.propertySet "SpeechServiceResponse_RequestSentenceBoundary" "true",
       TtsEffect.audioOutputConfigCreated output_filename,
       TtsEffect.synthesizerCreated,
       TtsEffect.wordBoundaryCallbackConnected,
       TtsEffect.speakSsml ssml,
       TtsEffect.audioFileWritten output_filename
         SpeechSynthesisOutputFormat.audio16Khz32KBitRateMonoMp3])
  else
    (Except.error (PyError.nameError "config"), [])

/-- The list a completed synthesis call returns (running the module with
`config` bound, since with the actual module globals the call never returns a
list). -/
def returnedBoundaries (store : ConfigStore) (text output_filename : String)
    (events : List WordBoundaryEvent) : List WordBoundary :=
  match (create_speech_from_text text_to_speech_globals_with_config store
      text output_filename events).1 with
  | Except.ok bs => bs
  | Except.error _ => []

/-- The file writes in a TTS effect trace, with their output formats. -/
def filesWritten (tr : List TtsEffect) : List (String × SpeechSynthesisOutputFormat) :=
  tr.filterMap (fun e =>
    match e with
    | TtsEffect.audioFileWritten path fmt => some (path, fmt)
    | _ => none)

/-- One tick of the Azure SDK word-boundary `audio_offset` is 100
nanoseconds, so a tick count is converted to seconds by dividing by 10^7. -/
def audioOffsetInSeconds (ticks : ℚ) : ℚ := ticks / 10000000

/-- A tick count is converted to milliseconds by dividing by 10^4. -/
def audioOffsetInMilliseconds (ticks : ℚ) : ℚ := ticks / 10000

/-! ## Embedding of src/ibm_text_analysis.py

The `IBM_Watson` class holds a token and an authenticator as instance state.
`IAMTokenManager(apikey=...).get_token()` contacts the external IAM service;
it is modelled as minting a token from the api key and a serial number drawn
from a supply carried in the state, so that two calls of `get_token` yield
distinct tokens and the token used by a request identifies the `authenticate`
call that produced it. -/

/-- An IAM bearer token, identified by the api key it was requested with and
the serial number of the minting call. -/
structure Token where
  apikey : String
  serial : ℕ
deriving DecidableEq, Repr

/-- `IAMTokenManager(apikey=apikey).get_token()`: the external IAM service
mints a fresh token for the api key. -/
def IAMTokenManager_get_token (apikey : String) (serial : ℕ) : Token :=
  { apikey := apikey, serial := serial }

/-- Instance state of `IBM_Watson`: `self.token`, `self.authenticator`
(a `BearerTokenAuthenticator` wrapping the token it was built from), and the
serial supply modelling the external IAM service. -/
structure WatsonState where
  token : Option Token
  authenticator : Option Token
  iamSerial : ℕ
deriving DecidableEq, Repr

/-- `IBM_Watson.__init__` (lines 21-23): both fields start as None. -/
def IBM_Watson_init (serial : ℕ) : WatsonState :=
  { token := none, authenticator := none, iamSerial := serial }

/-- JSON values, as returned by the vendor endpoints. -/
inductive Json where
  | null
  | bool (b : Bool)
  | num (q : ℚ)
  | str (s : String)
  | arr (xs : List Json)
  | obj (fields : List (String × Json))
deriving Repr

/-- `ConceptsOptions(limit=3)`. -/
structure ConceptsOptions where
  limit : ℕ
deriving DecidableEq, Repr

/-- `EmotionOptions()`. -/
structure EmotionOptions where
deriving DecidableEq, Repr

/-- `SemanticRolesOptions()`. -/
structure SemanticRolesOptions where
deriving DecidableEq, Repr

/-- `SentimentOptions(document=..., targets=...)`. -/
structure SentimentOptions where
  document : Bool
  targets : List String
deriving DecidableEq, Repr

/-- `ClassificationsOptions(model=...)`. -/
structure ClassificationsOptions where
  model : String
deriving DecidableEq, Repr

/-- `Features(...)`: each analysis method sets exactly one feature. -/
structure Features where
  concepts : Option ConceptsOptions := none
  emotion : Option EmotionOptions := none
  semantic_roles : Option SemanticRolesOptions := none
  sentiment : Option SentimentOptions := none
  classifications : Option ClassificationsOptions := none
deriving DecidableEq, Repr

/-- One `service.analyze(...)` request as the NLU client sends it: the
service url and version and authenticator of the client object, plus the
`text`, `features` and optional `language` keyword arguments (`get_text_tone`
passes no `language`). -/
structure AnalyzeRequest where
  serviceUrl : String
  version : String
  bearer : Option Token
  text : String
  features : Features
  language : Option String
deriving DecidableEq, Repr

/-- The NLU client object built by `get_natural_language_service`. -/
structure NLUService where
  version : String
  authenticator : Option Token
  serviceUrl : String
deriving DecidableEq, Repr

/-- The TTS client object built by `get_text_to_speech_service`. -/
structure TTSService where
  authenticator : Option Token
  serviceUrl : String
deriving DecidableEq, Repr

/-- Observable side effects of the `IBM_Watson` methods, in program order. -/
inductive WatsonEffect where
  | configRead (key : String)
  | iamTokenRequest (apikey : String)
  | analyzeSent (req : AnalyzeRequest)
  | sttPostSent (url : String) (bearer : Option Token)
      (contentType transactionId file_path : String)
  | ttsServiceCreated (svc : TTSService)
deriving DecidableEq, Repr

/-- `IBM_Watson.authenticate` (lines 25-27): request a fresh IAM token for
`apikey` and wrap it in a `BearerTokenAuthenticator`, overwriting both
instance fields. -/
def authenticate (st : WatsonState) (apikey : String) :
    WatsonState × List WatsonEffect :=
  let token := IAMTokenManager_get_token apikey st.iamSerial
  ({ token := some token, authenticator := some token,
     iamSerial := st.iamSerial + 1 },
   [WatsonEffect.iamTokenRequest apikey])

/-- `IBM_Watson.get_natural_language_service` (lines 29-45): authenticate
with `config("NLP_KEY")`, build the NLU client with the given version and the
fresh authenticator, and point it at `config("NLP_BASE_URL")`. -/
def get_natural_language_service (st : WatsonState) (store : ConfigStore)
    (version : String) : NLUService × WatsonState × List WatsonEffect :=
  let r := authenticate st (store "NLP_KEY")
  let service : NLUService :=
    { version := version, authenticator := r.1.authenticator,
      serviceUrl := store "NLP_BASE_URL" }
  (service, r.1,
   WatsonEffect.configRead "NLP_KEY" :: r.2 ++
     [WatsonEffect.configRead "NLP_BASE_URL"])

/-- `service.analyze(text=..., features=..., language=...)`: the request the
client sends, carrying its authenticator token. -/
def NLUService.analyze (service : NLUService) (text : String)
    (features : Features) (language : Option String) : AnalyzeRequest :=
  { serviceUrl := service.serviceUrl, version := service.version,
    bearer := service.authenticator, text := text,
    features := features, language := language }

/-- An HTTP response from the raw speech-to-text endpoint. -/
structure HttpResponse where
  status_code : ℕ
  body : Json
deriving Repr

/-- `IBM_Watson.get_speech_to_text_result` (lines 47-72): authenticate with
`config("STT_API_KEY")`, start with `transcript = None`, post the file once
to `config("URL")` with a bearer header carrying `self.token`, and set
`transcript` to the parsed body only when the status code is 200.  There is
no loop or retry: exactly one post is issued.  `response` is the reply the
external endpoint gives to that single post. -/
def get_speech_to_text_result (st : WatsonState) (store : ConfigStore)
    (file_path : String) (response : HttpResponse) :
    Option Json × WatsonState × List WatsonEffect :=
  let r := authenticate st (store "STT_API_KEY")
  let transcript : Option Json := none
  let transcript :=
    if response.status_code = 200 then some response.body else transcript
  (transcript, r.1,
   WatsonEffect.configRead "STT_API_KEY" :: r.2 ++
     [WatsonEffect.configRead "URL",
      WatsonEffect.sttPostSent (store "URL") r.1.token "audio/mp3"
        "presentation-skills-request" file_path])

/-- `IBM_Watson.get_text_to_speech_service` (lines 74-84): authenticate with
`config("TTS_API_KE")`, build the TTS client with the fresh authenticator,
and point it at `config("TTS_BASE_URL")`. -/
def get_text_to_speech_service (st : WatsonState) (store : ConfigStore) :
    TTSService × WatsonState × List WatsonEffect :=
  let r := authenticate st (store "TTS_API_KE")
  let service : TTSService :=
    { authenticator := r.1.authenticator, serviceUrl := store "TTS_BASE_URL" }
  (service, r.1,
   WatsonEffect.configRead "TTS_API_KE" :: r.2 ++
     [WatsonEffect.configRead "TTS_BASE_URL",
      WatsonEffect.ttsServiceCreated service])

/-! Python `text.split('.')` (used by `get_text_sentiment`): split on every
occurrence of the separator, keeping empty fragments, with
`"".split('.') == [""]`.  Defined over the character list of the string. -/

/-- Character-level semantics of python `str.split` with a one-character
separator. -/
def pySplit (c : Char) : List Char → List (List Char)
  | [] => [[]]
  | x :: xs =>
    match pySplit c xs with
    | [] => [[]]
    | g :: gs => if x = c then [] :: g :: gs else (x :: g) :: gs

/-- Python `s.split(c)` for a one-character separator, on strings. -/
def pyStrSplit (s : String) (c : Char) : List String :=
  (pySplit c s.data).map String.mk

/-- The analyze request `get_text_concept` builds (lines 86-103):
`Features(concepts=ConceptsOptions(limit=3))`, `language="en"`, on the
service for version 2022-04-07. -/
def get_text_concept_request (st : WatsonState) (store : ConfigStore)
    (text : String) : AnalyzeRequest :=
  ((get_natural_language_service st store "2022-04-07").1).analyze text
    { concepts := some { limit := 3 } } (some "en")

/-- `IBM_Watson.get_text_concept` (lines 86-103): build the service, send the
analyze request, and return the response (serialized by `json.dumps` with
indent 2, whose formatting no claim concerns).  `net` is the external NLU
endpoint. -/
def get_text_concept (st : WatsonState) (store : ConfigStore)
    (net : AnalyzeRequest → Json) (text : String) :
    Json × WatsonState × List WatsonEffect :=
  let r := get_natural_language_service st store "2022-04-07"
  let req := get_text_concept_request st store text
  (net req, r.2.1, r.2.2 ++ [WatsonEffect.analyzeSent req])

/-- The analyze request `get_text_emotion` builds (lines 105-120):
`Features(emotion=EmotionOptions())`, `language="en"`. -/
def get_text_emotion_request (st : WatsonState) (store : ConfigStore)
    (text : String) : AnalyzeRequest :=
  ((get_natural_language_service st store "2022-04-07").1).analyze text
    { emotion := some {} } (some "en")

/-- `IBM_Watson.get_text_emotion` (lines 105-120). -/
def get_text_emotion (st : WatsonState) (store : ConfigStore)
    (net : AnalyzeRequest → Json) (text : String) :
    Json × WatsonState × List WatsonEffect :=
  let r := get_natural_language_service st store "2022-04-07"
  let req := get_text_emotion_request st store text
  (net req, r.2.1, r.2.2 ++ [WatsonEffect.analyzeSent req])

/-- The analyze request `get_text_semantic_roles` builds (lines 122-137):
`Features(semantic_roles=SemanticRolesOptions())`, `language="en"`. -/
def get_text_semantic_roles_request (st : WatsonState) (store : ConfigStore)
    (text : String) : AnalyzeRequest :=
  ((get_natural_language_service st store "2022-04-07").1).analyze text
    { semantic_roles := some {} } (some "en")

/-- `IBM_Watson.get_text_semantic_roles` (lines 122-137). -/
def get_text_semantic_roles (st : WatsonState) (store : ConfigStore)
    (net : AnalyzeRequest → Json) (text : String) :
    Json × WatsonState × List WatsonEffect :=
  let r := get_natural_language_service st store "2022-04-07"
  let req := get_text_semantic_roles_request st store text
  (net req, r.2.1, r.2.2 ++ [WatsonEffect.analyzeSent req])

/-- The analyze request `get_text_sentiment` builds (lines 139-155):
`Features(sentiment=SentimentOptions(document=False, targets=text.split('.')))`,
`language="en"`. -/
def get_text_sentiment_request (st : WatsonState) (store : ConfigStore)
    (text : String) : AnalyzeRequest :=
  ((get_natural_language_service st store "2022-04-07").1).analyze text
    { sentiment := some { document := false, targets := pyStrSplit text '.' } }
    (some "en")

/-- `IBM_Watson.get_text_sentiment` (lines 139-155). -/
def get_text_sentiment (st : WatsonState) (store : ConfigStore)
    (net : AnalyzeRequest → Json) (text : String) :
    Json × WatsonState × List WatsonEffect :=
  let r := get_natural_language_service st store "2022-04-07"
  let req := get_text_sentiment_request st store text
  (net req, r.2.1, r.2.2 ++ [WatsonEffect.analyzeSent req])

/-- The analyze request `get_text_tone` builds (lines 157-163):
`Features(classifications=ClassificationsOptions(model='tone-classifications-en-v1'))`
and no `language` keyword argument. -/
def get_text_tone_request (st : WatsonState) (store : ConfigStore)
    (text : String) : AnalyzeRequest :=
  ((get_natural_language_service st store "2022-04-07").1).analyze text
    { classifications := some { model := "tone-classifications-en-v1" } } none

/-- `IBM_Watson.get_text_tone` (lines 157-163). -/
def get_text_tone (st : WatsonState) (store : ConfigStore)
    (net : AnalyzeRequest → Json) (text : String) :
    Json × WatsonState × List WatsonEffect :=
  let r := get_natural_language_service st store "2022-04-07"
  let req := get_text_tone_request st store text
  (net req, r.2.1, r.2.2 ++ [WatsonEffect.analyzeSent req])

/-! ## Trace projections and derived notions used by the claims -/

/-- The configuration keys read along a Watson effect trace. -/
def watsonConfigReads (tr : List WatsonEffect) : List String :=
  tr.filterMap (fun e =>
    match e with
    | WatsonEffect.configRead k => some k
    | _ => none)

/-- The configuration keys read along a TTS effect trace. -/
def ttsConfigReads (tr : List TtsEffect) : List String :=
  tr.filterMap (fun e =>
    match e with
    | TtsEffect.configRead k => some k
    | _ => none)

/-- The api keys for which IAM tokens are requested along a trace. -/
def iamRequests (tr : List WatsonEffect) : List String :=
  tr.filterMap (fun e =>
    match e with
    | WatsonEffect.iamTokenRequest k => some k
    | _ => none)

/-- The bearer credentials attached to the vendor requests (NLU analyze or
raw speech-to-text post) of a trace. -/
def vendorBearers (tr : List WatsonEffect) : List (Option Token) :=
  tr.filterMap (fun e =>
    match e with
    | WatsonEffect.analyzeSent req => some req.bearer
    | WatsonEffect.sttPostSent _ b _ _ _ => some b
    | _ => none)

/-- The target urls of the raw speech-to-text posts of a trace. -/
def sttPosts (tr : List WatsonEffect) : List String :=
  tr.filterMap (fun e =>
    match e with
    | WatsonEffect.sttPostSent url _ _ _ _ => some url
    | _ => none)

/-- Whether an effect is an IAM token mint. -/
def WatsonEffect.isTokenMint : WatsonEffect → Bool
  | WatsonEffect.iamTokenRequest _ => true
  | _ => false

/-- Whether an effect is a vendor request (NLU analyze or raw STT post). -/
def WatsonEffect.isVendorSend : WatsonEffect → Bool
  | WatsonEffect.analyzeSent _ => true
  | WatsonEffect.sttPostSent _ _ _ _ _ => true
  | _ => false

/-- A trace authenticates per call with `apikey` when the IAM service is
asked for exactly one token, for that api key; the one vendor request of the
trace carries exactly the token minted by that request (the token of serial
`serial`, the serial current at entry, so the credential cannot come from an
earlier call); and the token mint happens before the vendor request. -/
def authenticatesFreshly (tr : List WatsonEffect) (apikey : String)
    (serial : ℕ) : Prop :=
  iamRequests tr = [apikey] ∧
  vendorBearers tr = [some (IAMTokenManager_get_token apikey serial)] ∧
  tr.findIdx WatsonEffect.isTokenMint < tr.findIdx WatsonEffect.isVendorSend

/-- Every configuration key the program looks up: the keys read by each of
the `IBM_Watson` methods and by `create_speech_from_text`.  The synthesis
function is run in the module environment with `config` bound so that its
two lookups (source lines 37-38) are reached; with the actual module globals
they are still lookups written in the program, but the name `config` fails
to resolve first. -/
def programConfigKeys (st : WatsonState) (store : ConfigStore)
    (net : AnalyzeRequest → Json) (text file_path : String)
    (response : HttpResponse) (output_filename : String)
    (events : List WordBoundaryEvent) : List String :=
  watsonConfigReads (get_natural_language_service st store "2022-04-07").2.2 ++
  watsonConfigReads (get_speech_to_text_result st store file_path response).2.2 ++
  watsonConfigReads (get_text_to_speech_service st store).2.2 ++
  watsonConfigReads (get_text_concept st store net text).2.2 ++
  watsonConfigReads (get_text_emotion st store net text).2.2 ++
  watsonConfigReads (get_text_semantic_roles st store net text).2.2 ++
  watsonConfigReads (get_text_sentiment st store net text).2.2 ++
  watsonConfigReads (get_text_tone st store net text).2.2 ++
  ttsConfigReads (create_speech_from_text text_to_speech_globals_with_config
    store text output_filename events).2

/-- The configuration key set listed in section 6 of the spec, written from
the spec wording for comparison against the keys the embedded code reads. -/
def specListedConfigKeys : List String :=
  ["NLP_KEY", "NLP_BASE_URL", "STT_API_KEY", "URL", "TTS_API_KE",
   "SPEECH_KEY", "SERVICE_REGION"]

/-- The sentiment targets carried by an analyze request. -/
def requestSentimentTargets (req : AnalyzeRequest) : List String :=
  match req.features.sentiment with
  | some so => so.targets
  | none => []

/-! ## Sample inputs for concrete witnesses -/

/-- A concrete config store. -/
def sampleStore : ConfigStore := fun _ => "value"

/-- A freshly constructed `IBM_Watson` instance. -/
def sampleState : WatsonState := IBM_Watson_init 0

/-- A concrete NLU endpoint behaviour. -/
def sampleNet : AnalyzeRequest → Json := fun _ => Json.null

/-- A concrete 200 response for the raw STT endpoint. -/
def sampleResponse : HttpResponse := { status_code := 200, body := Json.null }

/-- A concrete non-200 response for the raw STT endpoint. -/
def sampleResponse500 : HttpResponse := { status_code := 500, body := Json.null }

/-- A concrete SDK event stream: a multi-word fragment delivered first
(larger text offset), then a single word. -/
def sampleEvents : List WordBoundaryEvent :=
  [{ audio_offset := 10000000, duration := 1, text := "hello world",
     text_offset := 3, word_length := 11 },
   { audio_offset := 0, duration := 1, text := "hi",
     text_offset := 0, word_length := 2 }]

/-- A concrete event whose tick offset is exactly one second of audio. -/
def sampleTickEvent : WordBoundaryEvent :=
  { audio_offset := 10000000, duration := 1, text := "hello",
    text_offset := 0, word_length := 5 }

/-! ## Helper lemmas on python split semantics -/

/-- `pySplit` never returns the empty list of fragments. -/
theorem pySplit_ne_nil (c : Char) (l : List Char) : pySplit c l ≠ [] := by
  cases l with
  | nil => simp [pySplit]
  | cons x xs =>
    simp only [pySplit]
    cases h : pySplit c xs with
    | nil => simp
    | cons g gs =>
      by_cases hx : x = c <;> simp [hx]

/-- Unfolding equation of `pySplit` on a cons cell. -/
theorem pySplit_cons (c x : Char) (xs : List Char) :
    pySplit c (x :: xs) =
      match pySplit c xs with
      | [] => [[]]
      | g :: gs => if x = c then [] :: g :: gs else (x :: g) :: gs := rfl

/-- A list without the separator splits into itself as the one fragment. -/
theorem pySplit_of_not_mem (c : Char) (l : List Char) (h : c ∉ l) :
    pySplit c l = [l] := by
  induction l with
  | nil => simp [pySplit]
  | cons x xs ih =>
    simp only [List.mem_cons, not_or] at h
    have hx : ¬ x = c := fun e => h.1 e.symm
    rw [pySplit_cons, ih h.2]
    simp [hx]

/-- A list containing the separator splits into at least two fragments. -/
theorem two_le_pySplit_length_of_mem (c : Char) (l : List Char) (h : c ∈ l) :
    2 ≤ (pySplit c l).length := by
  induction l with
  | nil => simp at h
  | cons x xs ih =>
    rw [pySplit_cons]
    cases hsp : pySplit c xs with
    | nil => exact absurd hsp (pySplit_ne_nil c xs)
    | cons g gs =>
      by_cases hx : x = c
      · simp [hx]
      · rcases List.mem_cons.mp h with h1 | h2
        · exact absurd h1.symm hx
        · have h3 := ih h2
          rw [hsp] at h3
          simp only [List.length_cons, if_neg hx] at h3 ⊢
          omega

/-- A list ending in the separator splits with an empty final fragment. -/
theorem pySplit_getLast_of_ends_sep (c : Char) (l : List Char)
    (h : l.getLast? = some c) : (pySplit c l).getLast? = some [] := by
  induction l with
  | nil => simp at h
  | cons x xs ih =>
    cases xs with
    | nil =>
      simp only [List.getLast?_singleton, Option.some_inj] at h
      subst h
      simp [pySplit]
    | cons y ys =>
      rw [List.getLast?_cons_cons] at h
      have ihh := ih h
      have hmem : c ∈ y :: ys := by
        clear ih ihh
        induction ys generalizing y with
        | nil => simp_all
        | cons z zs ih2 =>
          rw [List.getLast?_cons_cons] at h
          exact List.mem_cons_of_mem _ (ih2 _ h)
      have hlen := two_le_pySplit_length_of_mem c (y :: ys) hmem
      rw [pySplit_cons]
      cases hsp : pySplit c (y :: ys) with
      | nil => exact absurd hsp (pySplit_ne_nil c _)
      | cons g gs =>
        rw [hsp] at ihh hlen
        cases gs with
        | nil => simp at hlen
        | cons g2 gs2 =>
          rw [List.getLast?_cons_cons] at ihh
          by_cases hx : x = c
          · simp only [if_pos hx, List.getLast?_cons_cons]
            exact ihh
          · simp only [if_neg hx, List.getLast?_cons_cons]
            exact ihh

/-! ## Claims -/

/-- C1: the list a synthesis call returns contains no word-boundary record
whose text contains a space character, and every collected record whose text
contains no space is kept in the returned list.  The returned list is the
stable sort of the filter of the collected records (lines 67-68), so the
space-filter membership survives the sort in both directions. -/
theorem C1_returned_boundaries_space_filter (store : ConfigStore)
    (text out : String) (events : List WordBoundaryEvent) :
    (∀ wb ∈ returnedBoundaries store text out events,
        wb.text.contains ' ' = false) ∧
    (∀ wb ∈ collectedBoundaries events, wb.text.contains ' ' = false →
        wb ∈ returnedBoundaries store text out events) := by
  have hret : returnedBoundaries store text out events = sortedBoundaries events := rfl
  have hperm : (sortedBoundaries events).Perm (filteredBoundaries events) :=
    List.mergeSort_perm (filteredBoundaries events) _
  constructor
  · intro wb hwb
    rw [hret] at hwb
    have hmem : wb ∈ filteredBoundaries events := hperm.mem_iff.mp hwb
    have := List.mem_filter.mp hmem
    simpa using this.2
  · intro wb hwb hs
    have hmem : wb ∈ filteredBoundaries events :=
      List.mem_filter.mpr ⟨hwb, by simp [hs]⟩
    rw [hret]
    exact hperm.mem_iff.mpr hmem

/-- Witness for C1 at a concrete synthesis call: the multi-word fragment
"hello world" is collected first, the single word "hi" is kept in the
returned list. -/
theorem C1_witness_kept_record :
    speech_synthesizer_word_boundary_cb
        { audio_offset := 0, duration := 1, text := "hi",
          text_offset := 0, word_length := 2 } ∈
      returnedBoundaries sampleStore "hi hello world" "out.mp3" sampleEvents :=
  (C1_returned_boundaries_space_filter sampleStore "hi hello world" "out.mp3"
      sampleEvents).2 _
    (List.mem_cons_of_mem _ (List.mem_cons_self _ _))
    (by simp [speech_synthesizer_word_boundary_cb, String.contains, String.any_eq])

/-- C2: the returned word-boundary list is sorted ascending by text_offset
(every adjacent pair is ordered by ≤) and is a permutation of the filtered
records. -/
theorem C2_returned_boundaries_sorted_perm (store : ConfigStore)
    (text out : String) (events : List WordBoundaryEvent) :
    List.Chain' (fun a b : WordBoundary => a.text_offset ≤ b.text_offset)
      (returnedBoundaries store text out events) ∧
    (returnedBoundaries store text out events).Perm (filteredBoundaries events) := by
  have hret : returnedBoundaries store text out events = sortedBoundaries events := rfl
  rw [hret]
  constructor
  · have hp := @List.sorted_mergeSort WordBoundary
      (fun a b : WordBoundary => decide (a.text_offset ≤ b.text_offset))
      (fun a b c hab hbc => by
        simp only [decide_eq_true_eq] at hab hbc ⊢
        exact le_trans hab hbc)
      (fun a b => by
        simp only [Bool.or_eq_true, decide_eq_true_eq]
        exact le_total a.text_offset b.text_offset)
      (filteredBoundaries events)
    have hp2 : (sortedBoundaries events).Pairwise
        (fun a b : WordBoundary => a.text_offset ≤ b.text_offset) := by
      refine hp.imp ?_
      intro a b h
      simpa using h
    exact hp2.chain'
  · exact List.mergeSort_perm (filteredBoundaries events) _

/-- C3: a non-200 response to the single raw transcription post yields a
None transcript; a non-None transcript forces status 200; and exactly one
post (to the configured URL) is issued, so there is no retry. -/
theorem C3_non200_yields_none_single_post (st : WatsonState)
    (store : ConfigStore) (fp : String) (resp : HttpResponse) :
    (resp.status_code ≠ 200 →
        (get_speech_to_text_result st store fp resp).1 = none) ∧
    ((get_speech_to_text_result st store fp resp).1 ≠ none →
        resp.status_code = 200) ∧
    sttPosts (get_speech_to_text_result st store fp resp).2.2 = [store "URL"] := by
  refine ⟨?_, ?_, rfl⟩
  · intro h
    simp [get_speech_to_text_result, authenticate, h]
  · intro h
    by_contra hne
    simp [get_speech_to_text_result, authenticate, hne] at h

/-- Witness for C3: a concrete 500 response yields a None transcript, with
exactly one post issued. -/
theorem C3_witness_500 :
    (get_speech_to_text_result sampleState sampleStore "audio.mp3"
        sampleResponse500).1 = none ∧
    sttPosts (get_speech_to_text_result sampleState sampleStore "audio.mp3"
        sampleResponse500).2.2 = [sampleStore "URL"] :=
  ⟨(C3_non200_yields_none_single_post sampleState sampleStore "audio.mp3"
      sampleResponse500).1 (by decide),
   (C3_non200_yields_none_single_post sampleState sampleStore "audio.mp3"
      sampleResponse500).2.2⟩

/-- C4: with the actual module globals of text_to_speech (the decouple
binding of line 1 commented out, so `config` unbound), every call of
`create_speech_from_text` raises NameError at the `SpeechConfig` argument
evaluation: the result is the error, the effect trace is empty (no speech
configuration is constructed, no SDK call is made, no file is written), and
no word-boundary list is returned. -/
theorem C4_unbound_config_name_error (store : ConfigStore) (text out : String)
    (events : List WordBoundaryEvent) :
    create_speech_from_text text_to_speech_globals store text out events =
      (Except.error (PyError.nameError "config"), []) := rfl

/-- C5 counterexample: at an event whose tick offset is exactly one second
of audio (10^7 ticks of 100 ns), the stored audio_offset field is 1000.5,
not the offset in seconds (1): the callback computes
`(evt.audio_offset + 5000) / 10000`, a conversion of the tick count to
milliseconds (plus a 0.5 ms rounding bias), not to seconds. -/
theorem C5_counterexample_offset_not_seconds :
    (speech_synthesizer_word_boundary_cb sampleTickEvent).audio_offset ≠
      audioOffsetInSeconds sampleTickEvent.audio_offset := by
  norm_num [speech_synthesizer_word_boundary_cb, audioOffsetInSeconds,
    sampleTickEvent]

/-- C5 amended: in every word-boundary record, the audio_offset field is the
word's offset converted from SDK ticks to milliseconds plus a constant half
millisecond (`(ticks + 5000) / 10000`), and the duration field is the
event's duration value stored unchanged (not converted to seconds). -/
theorem C5_offset_milliseconds_duration_passthrough (evt : WordBoundaryEvent) :
    (speech_synthesizer_word_boundary_cb evt).audio_offset =
      audioOffsetInMilliseconds evt.audio_offset + 1 / 2 ∧
    (speech_synthesizer_word_boundary_cb evt).duration = evt.duration := by
  refine ⟨?_, rfl⟩
  simp only [speech_synthesizer_word_boundary_cb, audioOffsetInMilliseconds]
  ring

/-- C6 counterexample: at a concrete run of every operation, the set of
configuration keys the program reads is not the seven-key set section 6 of
the spec lists: `get_text_to_speech_service` also reads TTS_BASE_URL
(src/ibm_text_analysis.py line 83), which the spec omits. -/
theorem C6_counterexample_key_set :
    ¬ ((programConfigKeys sampleState sampleStore sampleNet "text" "in.mp3"
        sampleResponse "out.mp3" []).toFinset = specListedConfigKeys.toFinset) := by
  decide

/-- C6 amended: the set of configuration keys the program reads is exactly
the seven keys the spec lists together with TTS_BASE_URL. -/
theorem C6_config_keys_include_tts_base_url (st : WatsonState)
    (store : ConfigStore) (net : AnalyzeRequest → Json) (text fp : String)
    (resp : HttpResponse) (out : String) (events : List WordBoundaryEvent) :
    (programConfigKeys st store net text fp resp out events).toFinset =
      (specListedConfigKeys ++ ["TTS_BASE_URL"]).toFinset := by
  show (["NLP_KEY", "NLP_BASE_URL", "STT_API_KEY", "URL", "TTS_API_KE",
         "TTS_BASE_URL", "NLP_KEY", "NLP_BASE_URL", "NLP_KEY", "NLP_BASE_URL",
         "NLP_KEY", "NLP_BASE_URL", "NLP_KEY", "NLP_BASE_URL", "NLP_KEY",
         "NLP_BASE_URL", "SPEECH_KEY", "SERVICE_REGION"] : List String).toFinset =
    (specListedConfigKeys ++ ["TTS_BASE_URL"]).toFinset
  decide

/-- C7: from any prior instance state, each of the five NLU analysis methods
and the raw transcription method mints exactly one fresh IAM token with the
operation's configured api key (NLP_KEY for the NLU methods, STT_API_KEY for
transcription), before its vendor request, and the vendor request carries
exactly that freshly minted token (the one of the serial current at entry),
never a token left over from a previous call. -/
theorem C7_authenticates_per_call (st : WatsonState) (store : ConfigStore)
    (net : AnalyzeRequest → Json) (text fp : String) (resp : HttpResponse) :
    authenticatesFreshly (get_text_concept st store net text).2.2
      (store "NLP_KEY") st.iamSerial ∧
    authenticatesFreshly (get_text_emotion st store net text).2.2
      (store "NLP_KEY") st.iamSerial ∧
    authenticatesFreshly (get_text_semantic_roles st store net text).2.2
      (store "NLP_KEY") st.iamSerial ∧
    authenticatesFreshly (get_text_sentiment st store net text).2.2
      (store "NLP_KEY") st.iamSerial ∧
    authenticatesFreshly (get_text_tone st store net text).2.2
      (store "NLP_KEY") st.iamSerial ∧
    authenticatesFreshly (get_speech_to_text_result st store fp resp).2.2
      (store "STT_API_KEY") st.iamSerial :=
  ⟨⟨rfl, rfl, by change (1:ℕ) < 3; decide⟩,
   ⟨rfl, rfl, by change (1:ℕ) < 3; decide⟩,
   ⟨rfl, rfl, by change (1:ℕ) < 3; decide⟩,
   ⟨rfl, rfl, by change (1:ℕ) < 3; decide⟩,
   ⟨rfl, rfl, by change (1:ℕ) < 3; decide⟩,
   ⟨rfl, rfl, by change (1:ℕ) < 3; decide⟩⟩

/-- C8: a synthesis call that completes (running the module with the config
binding present) returns a word-boundary list, and its file writes are
exactly one write, of the Audio16Khz32KBitRateMonoMp3 output, to exactly the
caller-specified output_filename. -/
theorem C8_writes_mp3_to_output_filename (store : ConfigStore)
    (text out : String) (events : List WordBoundaryEvent) :
    (∃ bs, (create_speech_from_text text_to_speech_globals_with_config store
        text out events).1 = Except.ok bs) ∧
    filesWritten (create_speech_from_text text_to_speech_globals_with_config
        store text out events).2 =
      [(out, SpeechSynthesisOutputFormat.audio16Khz32KBitRateMonoMp3)] :=
  ⟨⟨sortedBoundaries events, rfl⟩, rfl⟩

/-- C9: `get_text_sentiment` requests sentiment with document=False and
targets the input split on the period character (python `str.split('.')`
semantics); a text ending in a period yields the empty string as final
target, and a text with no period yields the whole text as single target. -/
theorem C9_sentiment_targets_split (st : WatsonState) (store : ConfigStore)
    (text : String) :
    (get_text_sentiment_request st store text).features.sentiment =
      some { document := false, targets := pyStrSplit text '.' } ∧
    (text.data.getLast? = some '.' →
      (requestSentimentTargets
          (get_text_sentiment_request st store text)).getLast? = some "") ∧
    ('.' ∉ text.data →
      requestSentimentTargets (get_text_sentiment_request st store text) =
        [text]) := by
  refine ⟨rfl, ?_, ?_⟩
  · intro h
    have hr : requestSentimentTargets (get_text_sentiment_request st store text) =
        pyStrSplit text '.' := rfl
    rw [hr, pyStrSplit]
    rw [List.getLast?_map, pySplit_getLast_of_ends_sep '.' text.data h]
    rfl
  · intro h
    have hr : requestSentimentTargets (get_text_sentiment_request st store text) =
        pyStrSplit text '.' := rfl
    rw [hr, pyStrSplit, pySplit_of_not_mem '.' text.data h]
    rfl

/-- Witness for C9: for the text "a.b." (ending in a period) the final
target is the empty string; for "abc" (no period) the single target is the
whole text. -/
theorem C9_witness_split_examples :
    (pyStrSplit "a.b." '.').getLast? = some "" ∧
    pyStrSplit "abc" '.' = ["abc"] := by
  constructor
  · have := (C9_sentiment_targets_split sampleState sampleStore "a.b.").2.1
      (by decide)
    simpa [requestSentimentTargets, get_text_sentiment_request,
      get_natural_language_service, authenticate, NLUService.analyze] using this
  · have := (C9_sentiment_targets_split sampleState sampleStore "abc").2.2
      (by decide)
    simpa [requestSentimentTargets, get_text_sentiment_request,
      get_natural_language_service, authenticate, NLUService.analyze] using this

/-- C10: `get_text_tone` sends its analyze request with the
tone-classifications-en-v1 classification model and no language parameter,
the other four analysis methods send language "en", and all five requests
carry NLU API version 2022-04-07. -/
theorem C10_tone_model_language_version (st : WatsonState)
    (store : ConfigStore) (text : String) :
    (get_text_tone_request st store text).language = none ∧
    (get_text_tone_request st store text).features.classifications =
      some { model := "tone-classifications-en-v1" } ∧
    (get_text_concept_request st store text).language = some "en" ∧
    (get_text_emotion_request st store text).language = some "en" ∧
    (get_text_semantic_roles_request st store text).language = some "en" ∧
    (get_text_sentiment_request st store text).language = some "en" ∧
    (get_text_tone_request st store text).version = "2022-04-07" ∧
    (get_text_concept_request st store text).version = "2022-04-07" ∧
    (get_text_emotion_request st store text).version = "2022-04-07" ∧
    (get_text_semantic_roles_request st store text).version = "2022-04-07" ∧
    (get_text_sentiment_request st store text).version = "2022-04-07" :=
  ⟨rfl, rfl, rfl, rfl, rfl, rfl, rfl, rfl, rfl, rfl, rfl⟩

end Misl
